import Mathlib

/-!
Verification development for the `payment` Go package (PayMe JSON-RPC client).

The definitions below are a shallow embedding of the package's source:
pure Go functions become Lean functions; the HTTP transport collaborator
becomes an explicit `World : Request → HTTPResult` argument; Go's
`(value, error)` multiple returns become `GoRet`, which also has an
explicit constructor for run-time panics (nil-pointer dereferences);
side effects (dispatched HTTP requests and logger calls) are collected
in an explicit `Trace`.  `time.Now()` is modelled by an explicit `now`
argument where the source consumes it.
-/

set_option maxHeartbeats 1000000

namespace Payme

/-- Model of a Go `interface{}` value as it appears in the JSON-facing maps
of the package.  `int64` and `intV` are distinguished because Go type
assertions (`x.(int64)`) distinguish `int64` from `int`. -/
inductive GoValue where
  | null
  | boolV (b : Bool)
  | str (s : String)
  | int64 (n : Int)
  | intV (n : Int)
  | arr (xs : List GoValue)
  | map (fields : List (String × GoValue))

/-- Lookup in a Go `map[string]interface{}` (keys are distinct in all uses,
so association-list lookup is faithful). -/
def lookupField : List (String × GoValue) → String → Option GoValue
  | [], _ => none
  | (k, v) :: rest, key => if k = key then some v else lookupField rest key

/-- Lookup a key of a `GoValue.map`; a missing key or a non-map value gives
`none` (a Go map read of a missing key yields the nil interface). -/
def goLookup (v : GoValue) (key : String) : Option GoValue :=
  match v with
  | .map fields => lookupField fields key
  | _ => none

/-- `Error` struct of response.go: the gateway's error detail. -/
structure ErrDetail where
  message : String
  code : Int
  data : String
  origin : String
deriving DecidableEq

/-- `Response` struct of response.go: the decoded inbound envelope.
`Result` is `interface{}` (absent = nil = `none`), `Error` is `*Error`. -/
structure Response where
  jsonrpc : String
  id : String
  result : Option GoValue
  error : Option ErrDetail

/-- Model of Go `error` values of the package.  The named constructors are
the sentinel errors of `errors.New` in part_000 plus `context.DeadlineExceeded`.
`wrapped pre cause` models `fmt.Errorf(pre ++ "%w", cause)`; `flat` models an
error whose message is not inspected by any code under verification.
`failedReceiptsCreate`/`failedReceiptsPay` model the two `fmt.Errorf` calls of
receipts.go lines 38 and 72 (`%v` formatting, no unwrapping), keeping the
formatted components structurally. -/
inductive GoError where
  | errReceiptNotFound
  | errReceiptAlreadyPaid
  | errReceiptExpired
  | errInvalidAmount
  | errInvalidParams
  | errCardNotFound
  | errInvalidFormatToken
  | errCardNumberNotFound
  | errCardExpired
  | errP2PIdenticalCards
  | errPaycomServiceNotAvailable
  | errProcessingCenterNotAvailable
  | errPermissionDenied
  | errParseError
  | errMethodNotFound
  | errInvalidRequest
  | errPaymeError
  | errTimeout
  | errEmptyOrInvalidPaycomID
  | errEmptyOrInvalidPaycomKey
  | deadlineExceeded
  | wrapped (pre : String) (cause : GoError)
  | flat (msg : String)
  | failedReceiptsCreate (cause : GoError) (requestID : String) (resp : Option Response)
  | failedReceiptsPay (cause : GoError) (requestID : String) (receiptsID : String)
      (respError : Option ErrDetail)

/-- `errors.Is(err, context.DeadlineExceeded)`: walks the `%w` chain looking
for `context.DeadlineExceeded` (the only `errors.Is` use in the source). -/
def errorsIsDeadlineExceeded : GoError → Bool
  | .deadlineExceeded => true
  | .wrapped _ cause => errorsIsDeadlineExceeded cause
  | _ => false

/-! ### Error code constants (part_000 lines 5-25) -/

def InvalidAmountErrorCode : Int := -31611
def InvalidParamsErrorCode : Int := -32602
def ReceiptNotFoundErrorCode : Int := -31401
def ReceiptAlreadyPaidErrorCode : Int := -31402
def ReceiptExpiredErrorCode : Int := -31403
def CardNotFoundErrorCode : Int := -31400
def InvalidFormatTokenErrorCode : Int := -32500
def CardNumberNotFoundCode : Int := -31300
def CardExpiredCode : Int := -31301
def P2PIdenticalCardsErrorCode : Int := -31630
def PaycomServiceNotAvailableCode : Int := -31001
def ProcessingCenterNotAvailableCode : Int := -31002
def PermissionDeniedCode : Int := -32504
def ParseErrorCode : Int := -32700
def MethodNotFoundCode : Int := -32601
def InvalidRequestCode : Int := -32600

/-- `IsPaymeError` of part_000: identity check against the 16 sentinels. -/
def IsPaymeError (err : GoError) : Bool :=
  match err with
  | .errReceiptNotFound | .errReceiptAlreadyPaid | .errReceiptExpired
  | .errInvalidAmount | .errInvalidParams | .errCardNotFound | .errInvalidFormatToken
  | .errCardNumberNotFound | .errCardExpired | .errP2PIdenticalCards
  | .errPaycomServiceNotAvailable | .errProcessingCenterNotAvailable
  | .errPermissionDenied | .errParseError | .errMethodNotFound | .errInvalidRequest => true
  | _ => false

/-- `GetErrorCode` of part_000: reverse (kind → code) direction of the taxonomy. -/
def GetErrorCode (err : GoError) : Int :=
  match err with
  | .errInvalidAmount => InvalidAmountErrorCode
  | .errInvalidParams => InvalidParamsErrorCode
  | .errReceiptNotFound => ReceiptNotFoundErrorCode
  | .errReceiptAlreadyPaid => ReceiptAlreadyPaidErrorCode
  | .errReceiptExpired => ReceiptExpiredErrorCode
  | .errCardNotFound => CardNotFoundErrorCode
  | .errInvalidFormatToken => InvalidFormatTokenErrorCode
  | .errCardNumberNotFound => CardNumberNotFoundCode
  | .errCardExpired => CardExpiredCode
  | .errP2PIdenticalCards => P2PIdenticalCardsErrorCode
  | .errPaycomServiceNotAvailable => PaycomServiceNotAvailableCode
  | .errProcessingCenterNotAvailable => ProcessingCenterNotAvailableCode
  | .errPermissionDenied => PermissionDeniedCode
  | .errParseError => ParseErrorCode
  | .errMethodNotFound => MethodNotFoundCode
  | .errInvalidRequest => InvalidRequestCode
  | _ => 0

/-- `handleErrorResponse` of the client (README part, lines 598-637).  The Go
receiver `c *Client` is unused by the body and therefore omitted. -/
def handleErrorResponse (responseJson : Response) : Response × Option GoError :=
  match responseJson.error with
  | none => (responseJson, none)
  | some e =>
    let errorCode := e.code
    let paymeError : Option GoError :=
      if errorCode = InvalidAmountErrorCode then some .errInvalidAmount
      else if errorCode = InvalidParamsErrorCode then some .errInvalidParams
      else if errorCode = CardNotFoundErrorCode then some .errCardNotFound
      else if errorCode = InvalidFormatTokenErrorCode then some .errInvalidFormatToken
      else if errorCode = CardNumberNotFoundCode then some .errCardNotFound
      else if errorCode = CardExpiredCode then some .errCardExpired
      else if errorCode = ProcessingCenterNotAvailableCode then
        some .errProcessingCenterNotAvailable
      else if errorCode = PaycomServiceNotAvailableCode then
        some .errPaycomServiceNotAvailable
      else if errorCode = ReceiptNotFoundErrorCode then some .errReceiptNotFound
      else if errorCode = ReceiptAlreadyPaidErrorCode then some .errReceiptAlreadyPaid
      else if errorCode = ReceiptExpiredErrorCode then some .errReceiptExpired
      else if errorCode ≠ 0 then some .errPaymeError
      else none
    (responseJson, paymeError)

/-- The code → kind direction of the taxonomy as realised by
`handleErrorResponse` on an envelope carrying the given error code. -/
def kindOf (code : Int) : Option GoError :=
  (handleErrorResponse
    { jsonrpc := "2.0", id := "", result := none,
      error := some { message := "", code := code, data := "", origin := "" } }).2

/-- The eleven gateway codes for which `handleErrorResponse` has an explicit
switch case (every other non-zero code takes the `default` branch). -/
def mappedCodes : List Int :=
  [InvalidAmountErrorCode, InvalidParamsErrorCode, CardNotFoundErrorCode,
   InvalidFormatTokenErrorCode, CardNumberNotFoundCode, CardExpiredCode,
   ProcessingCenterNotAvailableCode, PaycomServiceNotAvailableCode,
   ReceiptNotFoundErrorCode, ReceiptAlreadyPaidErrorCode, ReceiptExpiredErrorCode]

/-! ### Validation rules (utils.go) -/

/-- `ValidateAmount` of utils.go lines 63-71. -/
def ValidateAmount (amount : Int) : Option GoError :=
  if amount ≤ 0 then some .errInvalidAmount
  else if amount > 999999999999 then some .errInvalidAmount
  else none

/-- `ValidateCardToken` of utils.go lines 73-81 (`len` on Go strings counts
bytes; all uses in this development are ASCII, where `String.length` agrees). -/
def ValidateCardToken (token : String) : Option GoError :=
  if token = "" then some .errInvalidFormatToken
  else if token.length < 10 ∨ token.length > 100 then some .errInvalidFormatToken
  else none

/-- `ValidateReceiptID` of utils.go lines 83-91. -/
def ValidateReceiptID (id : String) : Option GoError :=
  if id = "" then some .errReceiptNotFound
  else if id.length < 5 ∨ id.length > 100 then some .errReceiptNotFound
  else none

/-- `FromSomToTiyin` of utils.go: major → minor currency unit conversion. -/
def FromSomToTiyin (amount : Int) : Int := amount * 100

/-- `FromTiyinToSom` of utils.go (Go `int` division truncates, as `Int.div`). -/
def FromTiyinToSom (amount : Int) : Int := amount / 100

/-! ### Data model (response.go).  Diagnostic-only nested fields of `Receipt`
(category, merchant, meta, account list, ...) are not consumed by any code
under verification and are omitted from the embedding. -/

/-- `Receipt` struct of response.go (scalar fields). -/
structure Receipt where
  id : String := ""
  createTime : Int := 0
  payTime : Int := 0
  cancelTime : Int := 0
  state : Int := 0
  rType : Int := 0
  amount : Int := 0
  currency : Int := 0
  commission : Int := 0
  description : String := ""

/-- `CreateReceiptResponse` of response.go (`Receipt *Receipt`). -/
structure CreateReceiptResponse where
  receipt : Option Receipt

/-- `PayReceiptResponse` of response.go. -/
structure PayReceiptResponse where
  receipt : Option Receipt

/-- `SendReceiptResponse` of response.go. -/
structure SendReceiptResponse where
  receipt : Option Receipt

/-- `CancelReceiptResponse` of response.go. -/
structure CancelReceiptResponse where
  receipt : Option Receipt

/-- `CheckReceiptResponse` of response.go. -/
structure CheckReceiptResponse where
  receipt : Option Receipt

/-- `GetReceiptResponse` of response.go. -/
structure GetReceiptResponse where
  receipt : Option Receipt

/-- `GetAllReceiptsResponse` of response.go (`Receipts []*Receipt`). -/
structure GetAllReceiptsResponse where
  receipts : List (Option Receipt)

/-- `SetFiscalDataResponse` of response.go. -/
structure SetFiscalDataResponse where
  receipt : Option Receipt

/-- `CardData` of response.go. -/
structure CardData where
  id : String
  token : String

/-- `PaymentData` of response.go. -/
structure PaymentData where
  orderID : String
  cardData : CardData

/-- `PaymentDetails` of response.go (`Amount int`). -/
structure PaymentDetails where
  client : PaymentData
  driver : PaymentData
  amount : Int

/-! ### Model of `json.Marshal(resp.Result)` + `json.Unmarshal(bytes, &T)`.
`none` models a `json.Unmarshal` type error; missing or null JSON fields
leave the Go zero value. -/

/-- Decode a JSON string field into a Go `string` (absent/null → zero value). -/
def jsonFieldString (fields : List (String × GoValue)) (key : String) : Option String :=
  match lookupField fields key with
  | none => some ""
  | some .null => some ""
  | some (.str s) => some s
  | some _ => none

/-- Decode a JSON number field into a Go integer (absent/null → zero value). -/
def jsonFieldInt (fields : List (String × GoValue)) (key : String) : Option Int :=
  match lookupField fields key with
  | none => some 0
  | some .null => some 0
  | some (.int64 n) => some n
  | some (.intV n) => some n
  | some _ => none

/-- Unmarshal a JSON value into a `Receipt` struct. -/
def unmarshalReceipt (v : GoValue) : Option Receipt :=
  match v with
  | .null => some {}
  | .map fields =>
    match jsonFieldString fields "_id", jsonFieldInt fields "create_time",
        jsonFieldInt fields "pay_time", jsonFieldInt fields "cancel_time",
        jsonFieldInt fields "state", jsonFieldInt fields "type",
        jsonFieldInt fields "amount", jsonFieldInt fields "currency",
        jsonFieldInt fields "commission", jsonFieldString fields "description" with
    | some id, some createTime, some payTime, some cancelTime, some state, some rType,
      some amount, some currency, some commission, some description =>
      some { id, createTime, payTime, cancelTime, state, rType, amount, currency,
             commission, description }
    | _, _, _, _, _, _, _, _, _, _ => none
  | _ => none

/-- Unmarshal the `"receipt"` JSON field into a Go `*Receipt`
(absent/null → nil pointer). -/
def unmarshalReceiptField (fields : List (String × GoValue)) : Option (Option Receipt) :=
  match lookupField fields "receipt" with
  | none => some none
  | some .null => some none
  | some v => (unmarshalReceipt v).map some

/-- Unmarshal into a one-field `{Receipt *Receipt}` wrapper struct
(shared shape of the receipt method responses). -/
def unmarshalReceiptWrapper (v : GoValue) : Option (Option Receipt) :=
  match v with
  | .null => some none
  | .map fields => unmarshalReceiptField fields
  | _ => none

/-- Unmarshal a JSON array into a Go `[]*Receipt`. -/
def unmarshalReceiptPtrList : List GoValue → Option (List (Option Receipt))
  | [] => some []
  | v :: rest =>
    match v with
    | .null =>
      (unmarshalReceiptPtrList rest).map (none :: ·)
    | _ =>
      match unmarshalReceipt v, unmarshalReceiptPtrList rest with
      | some r, some rs => some (some r :: rs)
      | _, _ => none

/-! ### Client and request/response pipeline (README client part) -/

/-- `xAuthHeaders` of the client. -/
structure XAuthHeaders where
  paymeID : String
  paymeKey : String

/-- `Client` struct.  The `*log.Logger` field is modelled by the `hasLogger`
flag (log output is collected in the trace); the `http.Client` transport
collaborator is the explicit `World` argument of each operation. -/
structure Client where
  headers : XAuthHeaders
  baseURL : String
  hasLogger : Bool
  timeout : Int
  isTestMode : Bool
  requisiteName : String

/-- The HTTP request dispatched by `sendRequest` (method is always POST;
`timeout` is the context deadline derived for the call). -/
structure Request where
  url : String
  xAuth : String
  contentType : String
  timeout : Int
  body : GoValue

/-- Outcome of `json.Unmarshal` on the response body. -/
inductive Body where
  | malformed (cause : GoError)
  | envelope (resp : Response)

/-- Outcome of one HTTP exchange through the transport collaborator. -/
inductive HTTPResult where
  | transportFailure (err : GoError)
  | bodyReadFailure (status : Int) (err : GoError)
  | success (status : Int) (body : Body)

/-- The transport collaborator: what the environment answers to each request. -/
abbrev World : Type := Request → HTTPResult

/-- One logger call (`c.Logger.Printf`), kept structurally. -/
inductive LogEntry where
  | paymeErrorResponse (respError : Option ErrDetail) (err : GoError)
  | receiptsCreated (orderID requestID transactionID : String)
  | receiptsPaid (orderID requestID transactionID : String)
  | cancelFailed (receiptID : String) (err : GoError)
  | getAllResponse (result : GoValue)

/-- An observable effect of a call. -/
inductive Event where
  | httpRequest (req : Request)
  | log (entry : LogEntry)

/-- The sequence of observable effects of a call. -/
abbrev Trace : Type := List Event

/-- A Go multi-return `(value, error)`, or a run-time panic
(nil-pointer dereference). -/
inductive GoRet (α : Type) where
  | ret (val : α) (err : Option GoError)
  | panic (msg : String)

/-- `GenerateRequestID` of utils.go (`time.Now().UnixNano()` is the explicit
`now` argument). -/
def GenerateRequestID (p : String) (now : Int) : String :=
  p ++ ":" ++ toString now

/-- The outbound envelope body `{id, method, params}` built by `sendRequest`. -/
def mkRequestBody (requestID method : String) (params : GoValue) : GoValue :=
  .map [("id", .str requestID), ("method", .str method), ("params", params)]

/-- The full HTTP request `sendRequest` dispatches for the given arguments. -/
def mkClientRequest (c : Client) (requestID method : String) (params : GoValue)
    (withID : Bool) (timeout : List Int) : Request :=
  { url := c.baseURL
    xAuth := if withID then c.headers.paymeID
             else c.headers.paymeID ++ ":" ++ c.headers.paymeKey
    contentType := "application/json"
    timeout := match timeout with | t :: _ => t | [] => c.timeout
    body := mkRequestBody requestID method params }

/-- `sendRequest` of the client (README part, lines 517-593).  `ctx` and the
variadic `timeout ...time.Duration` are the `timeout : List Int` argument;
`json.Marshal` of the envelope map and `http.NewRequestWithContext` cannot
fail on the values this package builds and are modelled as total. -/
def Client.sendRequest (c : Client) (w : World) (requestID method : String)
    (params : GoValue) (withID : Bool) (timeout : List Int) :
    (Option Response × Option GoError) × Trace :=
  let req := mkClientRequest c requestID method params withID timeout
  match w req with
  | .transportFailure e =>
    if errorsIsDeadlineExceeded e then
      ((none, some .errTimeout), [.httpRequest req])
    else
      ((none, some (.wrapped "http request error: " e)), [.httpRequest req])
  | .bodyReadFailure _ e =>
    ((none, some (.wrapped "response body read error: " e)), [.httpRequest req])
  | .success _ (.malformed e) =>
    ((none, some (.wrapped "json unmarshal error: " e)), [.httpRequest req])
  | .success _ (.envelope responseJson) =>
    match handleErrorResponse responseJson with
    | (responseJson2, some e) =>
      if c.hasLogger then
        ((some responseJson2, some e),
         [.httpRequest req, .log (.paymeErrorResponse responseJson2.error e)])
      else
        ((some responseJson2, some e), [.httpRequest req])
    | (responseJson2, none) =>
      ((some responseJson2, none), [.httpRequest req])

/-! ### Receipt operations (README client part, lines 642-925) -/

/-- The `json.Unmarshal` type-error value produced when a result has the
wrong shape (its message is never inspected). -/
def jsonTypeError : GoError := .flat "json: cannot unmarshal"

/-- The `receiptParams` map built by `CreateReceipt` (lines 650-655). -/
def createReceiptParams (amount : Int) (account : GoValue) (description : String)
    (detail : GoValue) : GoValue :=
  .map [("amount", .int64 amount), ("account", account),
        ("description", .str description), ("detail", detail)]

/-- `CreateReceipt` (lines 642-672). -/
def Client.createReceipt (c : Client) (w : World) (now : Int) (amount : Int)
    (account : GoValue) (description : String) (detail : GoValue) :
    GoRet (Option CreateReceiptResponse) × Trace :=
  match ValidateAmount amount with
  | some err => (.ret none (some err), [])
  | none =>
    let requestID := GenerateRequestID "ReceiptsCreate" now
    let receiptParams := createReceiptParams amount account description detail
    match c.sendRequest w requestID "receipts.create" receiptParams false [] with
    | ((_, some err), tr) => (.ret none (some err), tr)
    | ((none, none), tr) => (.panic "nil pointer dereference", tr)
    | ((some resp, none), tr) =>
      match resp.result with
      | none => (.ret (some { receipt := none }) none, tr)
      | some rv =>
        match unmarshalReceiptWrapper rv with
        | none => (.ret none (some (.wrapped "result unmarshal error: " jsonTypeError)), tr)
        | some r => (.ret (some { receipt := r }) none, tr)

/-- `PayReceipt` (lines 677-708). -/
def Client.payReceipt (c : Client) (w : World) (now : Int)
    (receiptID token : String) : GoRet (Option PayReceiptResponse) × Trace :=
  match ValidateReceiptID receiptID with
  | some err => (.ret none (some err), [])
  | none =>
    match ValidateCardToken token with
    | some err => (.ret none (some err), [])
    | none =>
      let requestID := GenerateRequestID "ReceiptsPay" now
      let receiptParams : GoValue := .map [("id", .str receiptID), ("token", .str token)]
      match c.sendRequest w requestID "receipts.pay" receiptParams false [] with
      | ((_, some err), tr) => (.ret none (some err), tr)
      | ((none, none), tr) => (.panic "nil pointer dereference", tr)
      | ((some resp, none), tr) =>
        match resp.result with
        | none => (.ret (some { receipt := none }) none, tr)
        | some rv =>
          match unmarshalReceiptWrapper rv with
          | none => (.ret none (some (.wrapped "result unmarshal error: " jsonTypeError)), tr)
          | some r => (.ret (some { receipt := r }) none, tr)

/-- `SendReceipt` (lines 713-740). -/
def Client.sendReceipt (c : Client) (w : World) (now : Int) (receiptID : String) :
    GoRet (Option SendReceiptResponse) × Trace :=
  match ValidateReceiptID receiptID with
  | some err => (.ret none (some err), [])
  | none =>
    let requestID := GenerateRequestID "ReceiptsSend" now
    let receiptParams : GoValue := .map [("id", .str receiptID)]
    match c.sendRequest w requestID "receipts.send" receiptParams false [] with
    | ((_, some err), tr) => (.ret none (some err), tr)
    | ((none, none), tr) => (.panic "nil pointer dereference", tr)
    | ((some resp, none), tr) =>
      match resp.result with
      | none => (.ret (some { receipt := none }) none, tr)
      | some rv =>
        match unmarshalReceiptWrapper rv with
        | none => (.ret none (some (.wrapped "result unmarshal error: " jsonTypeError)), tr)
        | some r => (.ret (some { receipt := r }) none, tr)

/-- `CancelReceipt` (lines 745-772). -/
def Client.cancelReceipt (c : Client) (w : World) (now : Int) (receiptID : String) :
    GoRet (Option CancelReceiptResponse) × Trace :=
  match ValidateReceiptID receiptID with
  | some err => (.ret none (some err), [])
  | none =>
    let requestID := GenerateRequestID "ReceiptsCancel" now
    let receiptParams : GoValue := .map [("id", .str receiptID)]
    match c.sendRequest w requestID "receipts.cancel" receiptParams false [] with
    | ((_, some err), tr) => (.ret none (some err), tr)
    | ((none, none), tr) => (.panic "nil pointer dereference", tr)
    | ((some resp, none), tr) =>
      match resp.result with
      | none => (.ret (some { receipt := none }) none, tr)
      | some rv =>
        match unmarshalReceiptWrapper rv with
        | none => (.ret none (some (.wrapped "result unmarshal error: " jsonTypeError)), tr)
        | some r => (.ret (some { receipt := r }) none, tr)

/-- `CheckReceipt` (lines 777-804). -/
def Client.checkReceipt (c : Client) (w : World) (now : Int) (receiptID : String) :
    GoRet (Option CheckReceiptResponse) × Trace :=
  match ValidateReceiptID receiptID with
  | some err => (.ret none (some err), [])
  | none =>
    let requestID := GenerateRequestID "ReceiptsCheck" now
    let receiptParams : GoValue := .map [("id", .str receiptID)]
    match c.sendRequest w requestID "receipts.check" receiptParams false [] with
    | ((_, some err), tr) => (.ret none (some err), tr)
    | ((none, none), tr) => (.panic "nil pointer dereference", tr)
    | ((some resp, none), tr) =>
      match resp.result with
      | none => (.ret (some { receipt := none }) none, tr)
      | some rv =>
        match unmarshalReceiptWrapper rv with
        | none => (.ret none (some (.wrapped "result unmarshal error: " jsonTypeError)), tr)
        | some r => (.ret (some { receipt := r }) none, tr)

/-- `GetReceipt` (lines 809-836). -/
def Client.getReceipt (c : Client) (w : World) (now : Int) (receiptID : String) :
    GoRet (Option GetReceiptResponse) × Trace :=
  match ValidateReceiptID receiptID with
  | some err => (.ret none (some err), [])
  | none =>
    let requestID := GenerateRequestID "ReceiptsGet" now
    let receiptParams : GoValue := .map [("id", .str receiptID)]
    match c.sendRequest w requestID "receipts.get" receiptParams false [] with
    | ((_, some err), tr) => (.ret none (some err), tr)
    | ((none, none), tr) => (.panic "nil pointer dereference", tr)
    | ((some resp, none), tr) =>
      match resp.result with
      | none => (.ret (some { receipt := none }) none, tr)
      | some rv =>
        match unmarshalReceiptWrapper rv with
        | none => (.ret none (some (.wrapped "result unmarshal error: " jsonTypeError)), tr)
        | some r => (.ret (some { receipt := r }) none, tr)

/-- `GetAllReceipts` (lines 841-871): the result is unmarshalled into the
`Receipts []*Receipt` slice directly. -/
def Client.getAllReceipts (c : Client) (w : World) (now : Int)
    (fromTime toTime : Int) (count : Int) :
    GoRet (Option GetAllReceiptsResponse) × Trace :=
  let requestID := GenerateRequestID "ReceiptsGetAll" now
  let receiptParams : GoValue :=
    .map [("from", .int64 fromTime), ("to", .int64 toTime), ("count", .intV count)]
  match c.sendRequest w requestID "receipts.get_all" receiptParams false [] with
  | ((_, some err), tr) => (.ret none (some err), tr)
  | ((none, none), tr) => (.panic "nil pointer dereference", tr)
  | ((some resp, none), tr) =>
    match resp.result with
    | none => (.ret (some { receipts := [] }) none, tr)
    | some rv =>
      let tr2 := if c.hasLogger then tr ++ [Event.log (.getAllResponse rv)] else tr
      match rv with
      | .null => (.ret (some { receipts := [] }) none, tr2)
      | .arr xs =>
        match unmarshalReceiptPtrList xs with
        | none => (.ret none (some (.wrapped "result unmarshal error: " jsonTypeError)), tr2)
        | some rs => (.ret (some { receipts := rs }) none, tr2)
      | _ => (.ret none (some (.wrapped "result unmarshal error: " jsonTypeError)), tr2)

/-- `SetFiscalData` (lines 876-904). -/
def Client.setFiscalData (c : Client) (w : World) (now : Int) (receiptID : String)
    (fiscalData : GoValue) : GoRet (Option SetFiscalDataResponse) × Trace :=
  match ValidateReceiptID receiptID with
  | some err => (.ret none (some err), [])
  | none =>
    let requestID := GenerateRequestID "ReceiptsSetFiscalData" now
    let receiptParams : GoValue :=
      .map [("id", .str receiptID), ("fiscal_data", fiscalData)]
    match c.sendRequest w requestID "receipts.set_fiscal_data" receiptParams false [] with
    | ((_, some err), tr) => (.ret none (some err), tr)
    | ((none, none), tr) => (.panic "nil pointer dereference", tr)
    | ((some resp, none), tr) =>
      match resp.result with
      | none => (.ret (some { receipt := none }) none, tr)
      | some rv =>
        match unmarshalReceiptWrapper rv with
        | none => (.ret none (some (.wrapped "result unmarshal error: " jsonTypeError)), tr)
        | some r => (.ret (some { receipt := r }) none, tr)

/-- `CreateAndPayReceipt` (lines 911-925): sequential create → pay, wrapping
each step's error with `fmt.Errorf("... error: %w", err)`; `createResp.Receipt.ID`
dereferences the (possibly nil) receipt pointer. -/
def Client.createAndPayReceipt (c : Client) (w : World) (now : Int) (amount : Int)
    (account : GoValue) (description : String) (token : String) :
    GoRet (Option PayReceiptResponse) × Trace :=
  match c.createReceipt w now amount account description .null with
  | (.panic m, tr) => (.panic m, tr)
  | (.ret _ (some err), tr) =>
    (.ret none (some (.wrapped "create receipt error: " err)), tr)
  | (.ret createResp (none), tr) =>
    match createResp with
    | none => (.panic "nil pointer dereference", tr)
    | some createResp =>
      match createResp.receipt with
      | none => (.panic "nil pointer dereference", tr)
      | some r =>
        match c.payReceipt w now r.id token with
        | (.panic m, tr2) => (.panic m, tr ++ tr2)
        | (.ret _ (some err), tr2) =>
          (.ret none (some (.wrapped "pay receipt error: " err)), tr ++ tr2)
        | (.ret payResp (none), tr2) => (.ret payResp none, tr ++ tr2)

/-! ### Merchant and composite receipt operations (receipts.go) -/

/-- `PayForOrderReasonID` constant of receipts.go. -/
def PayForOrderReasonID : String := "6"

/-- The `receiptParams` map built by `CreateMerchantReceipt` (lines 26-34):
the amount is converted som → tiyin, the account key is the configured
requisite name, and the description instantiates the `Description` template. -/
def merchantReceiptParams (c : Client) (data : PaymentDetails) : GoValue :=
  .map [("amount", .intV (FromSomToTiyin data.amount)),
        ("account", .map [(c.requisiteName, .str data.client.orderID),
                          ("card_id", .str data.client.cardData.id),
                          ("reason", .str PayForOrderReasonID)]),
        ("description", .str ("Merchant transaction for order - " ++ data.client.orderID))]

/-- `CreateMerchantReceipt` (receipts.go lines 21-56).  `result.Receipt.ID`
dereferences the receipt pointer, which is nil when the gateway result (or
its `receipt` field) is absent. -/
def Client.createMerchantReceipt (c : Client) (w : World) (data : PaymentDetails) :
    GoRet String × Trace :=
  let requestID := "ReceiptsCreate:MerchantTransaction:" ++ data.client.orderID
  let receiptParams := merchantReceiptParams c data
  match c.sendRequest w requestID "receipts.create" receiptParams false [] with
  | ((resp, some err), tr) =>
    (.ret "" (some (.failedReceiptsCreate err requestID resp)), tr)
  | ((none, none), tr) => (.panic "nil pointer dereference", tr)
  | ((some resp, none), tr) =>
    match resp.result with
    | none => (.panic "nil pointer dereference", tr)
    | some rv =>
      match unmarshalReceiptWrapper rv with
      | none => (.ret "" (some (.wrapped "result unmarshal error: " jsonTypeError)), tr)
      | some none => (.panic "nil pointer dereference", tr)
      | some (some r) =>
        if c.hasLogger then
          (.ret r.id none,
           tr ++ [Event.log (.receiptsCreated data.client.orderID requestID r.id)])
        else
          (.ret r.id none, tr)

/-- `PayMerchantReceipt` (receipts.go lines 61-90).  In the error branch the
`fmt.Errorf` arguments evaluate `resp.Error`, a nil-pointer dereference when
`sendRequest` failed before producing a response. -/
def Client.payMerchantReceipt (c : Client) (w : World) (data : PaymentDetails)
    (createdReceiptsID : String) : GoRet String × Trace :=
  let requestID := "ReceiptsPay:" ++ data.client.orderID
  let receiptParams : GoValue :=
    .map [("id", .str createdReceiptsID), ("token", .str data.client.cardData.token)]
  match c.sendRequest w requestID "receipts.pay" receiptParams false [] with
  | ((none, some _), tr) => (.panic "nil pointer dereference", tr)
  | ((some resp, some err), tr) =>
    (.ret "" (some (.failedReceiptsPay err requestID createdReceiptsID resp.error)), tr)
  | ((none, none), tr) => (.panic "nil pointer dereference", tr)
  | ((some resp, none), tr) =>
    match resp.result with
    | none => (.panic "nil pointer dereference", tr)
    | some rv =>
      match unmarshalReceiptWrapper rv with
      | none => (.ret "" (some (.wrapped "result unmarshal error: " jsonTypeError)), tr)
      | some none => (.panic "nil pointer dereference", tr)
      | some (some r) =>
        if c.hasLogger then
          (.ret r.id none,
           tr ++ [Event.log (.receiptsPaid data.client.orderID requestID r.id)])
        else
          (.ret r.id none, tr)

/-- `CreateAndPayMerchantReceipt` (receipts.go lines 95-108): sequential
create → pay, each step's error returned unchanged. -/
def Client.createAndPayMerchantReceipt (c : Client) (w : World)
    (data : PaymentDetails) : GoRet String × Trace :=
  match c.createMerchantReceipt w data with
  | (.panic m, tr) => (.panic m, tr)
  | (.ret _ (some err), tr) => (.ret "" (some err), tr)
  | (.ret createdReceiptsID (none), tr) =>
    match c.payMerchantReceipt w data createdReceiptsID with
    | (.panic m, tr2) => (.panic m, tr ++ tr2)
    | (.ret _ (some err), tr2) => (.ret "" (some err), tr ++ tr2)
    | (.ret paidReceiptsID (none), tr2) => (.ret paidReceiptsID none, tr ++ tr2)

/-- `GetReceiptStatus` (receipts.go lines 113-120): `-1` on error, else the
state read through `resp.Receipt.State` (nil receipt pointer panics). -/
def Client.getReceiptStatus (c : Client) (w : World) (now : Int)
    (receiptID : String) : GoRet Int × Trace :=
  match c.checkReceipt w now receiptID with
  | (.panic m, tr) => (.panic m, tr)
  | (.ret _ (some err), tr) => (.ret (-1) (some err), tr)
  | (.ret resp (none), tr) =>
    match resp with
    | none => (.panic "nil pointer dereference", tr)
    | some resp =>
      match resp.receipt with
      | none => (.panic "nil pointer dereference", tr)
      | some r => (.ret r.state none, tr)

/-- `IsReceiptPaid` (receipts.go lines 125-132). -/
def Client.isReceiptPaid (c : Client) (w : World) (now : Int)
    (receiptID : String) : GoRet Bool × Trace :=
  match c.getReceiptStatus w now receiptID with
  | (.panic m, tr) => (.panic m, tr)
  | (.ret _ (some err), tr) => (.ret false (some err), tr)
  | (.ret state (none), tr) => (.ret (state == 1) none, tr)

/-- `IsReceiptCanceled` (receipts.go lines 137-144). -/
def Client.isReceiptCanceled (c : Client) (w : World) (now : Int)
    (receiptID : String) : GoRet Bool × Trace :=
  match c.getReceiptStatus w now receiptID with
  | (.panic m, tr) => (.panic m, tr)
  | (.ret _ (some err), tr) => (.ret false (some err), tr)
  | (.ret state (none), tr) => (.ret (state == -1) none, tr)

/-- `IsReceiptExpired` (receipts.go lines 149-156). -/
def Client.isReceiptExpired (c : Client) (w : World) (now : Int)
    (receiptID : String) : GoRet Bool × Trace :=
  match c.getReceiptStatus w now receiptID with
  | (.panic m, tr) => (.panic m, tr)
  | (.ret _ (some err), tr) => (.ret false (some err), tr)
  | (.ret state (none), tr) => (.ret (state == -2) none, tr)

/-- The `description, _ := receipt["description"].(string)` read of
receipts.go line 175 (a failed assertion leaves the zero value). -/
def itemDescription (item : List (String × GoValue)) : String :=
  match lookupField item "description" with
  | some (.str s) => s
  | _ => ""

/-- The `detail, _ := receipt["detail"].(map[string]interface{})` read of
receipts.go line 176 (a failed assertion leaves a nil map, which marshals
as JSON null). -/
def itemDetail (item : List (String × GoValue)) : GoValue :=
  match lookupField item "detail" with
  | some (.map m) => .map m
  | _ => .null

/-- Loop body of `CreateMultipleReceipts` (receipts.go lines 161-187):
items whose `"amount"` entry is not an `int64` or whose `"account"` entry is
not a map are skipped, as are items whose `CreateReceipt` call fails;
`resp.Receipt.ID` dereferences the receipt pointer of a successful response. -/
def createMultipleLoop (c : Client) (w : World) (now : Int) :
    List (List (String × GoValue)) → GoRet (List String) × Trace
  | [] => (.ret [] none, [])
  | receipt :: rest =>
    match lookupField receipt "amount" with
    | some (.int64 amount) =>
      match lookupField receipt "account" with
      | some (.map account) =>
        match c.createReceipt w now amount (.map account) (itemDescription receipt)
            (itemDetail receipt) with
        | (.panic m, tr) => (.panic m, tr)
        | (.ret _ (some _), tr) =>
          match createMultipleLoop c w now rest with
          | (res, tr2) => (res, tr ++ tr2)
        | (.ret resp (none), tr) =>
          match resp with
          | none => (.panic "nil pointer dereference", tr)
          | some resp =>
            match resp.receipt with
            | none => (.panic "nil pointer dereference", tr)
            | some r =>
              match createMultipleLoop c w now rest with
              | (.ret ids err, tr2) => (.ret (r.id :: ids) err, tr ++ tr2)
              | (.panic m, tr2) => (.panic m, tr ++ tr2)
      | _ => createMultipleLoop c w now rest
    | _ => createMultipleLoop c w now rest

/-- `CreateMultipleReceipts` (receipts.go lines 161-187). -/
def Client.createMultipleReceipts (c : Client) (w : World) (now : Int)
    (receipts : List (List (String × GoValue))) : GoRet (List String) × Trace :=
  createMultipleLoop c w now receipts

/-- Loop body of `CancelMultipleReceipts` (receipts.go lines 192-204): a
failed cancel is logged (only when a logger is configured) and the loop
continues; the per-item error is discarded. -/
def cancelMultipleLoop (c : Client) (w : World) (now : Int) :
    List String → GoRet Unit × Trace
  | [] => (.ret () none, [])
  | receiptID :: rest =>
    match c.cancelReceipt w now receiptID with
    | (.panic m, tr) => (.panic m, tr)
    | (.ret _ (some err), tr) =>
      let logTr : Trace :=
        if c.hasLogger then [Event.log (.cancelFailed receiptID err)] else []
      match cancelMultipleLoop c w now rest with
      | (res, tr2) => (res, tr ++ logTr ++ tr2)
    | (.ret _ (none), tr) =>
      match cancelMultipleLoop c w now rest with
      | (res, tr2) => (res, tr ++ tr2)

/-- `CancelMultipleReceipts` (receipts.go lines 192-204). -/
def Client.cancelMultipleReceipts (c : Client) (w : World) (now : Int)
    (receiptIDs : List String) : GoRet Unit × Trace :=
  cancelMultipleLoop c w now receiptIDs

/-! ### Shared fixtures and observation helpers for the theorems -/

/-- `TestEndpoint` of utils.go. -/
def TestEndpoint : String := "https://checkout.test.paycom.uz/api"

/-- `ProductionEndpoint` of utils.go. -/
def ProductionEndpoint : String := "https://checkout.paycom.uz/api"

/-- A concrete client configuration used by concrete witnesses. -/
def cSample : Client :=
  { headers := { paymeID := "merchant1", paymeKey := "key1" }
    baseURL := TestEndpoint
    hasLogger := false
    timeout := 30
    isTestMode := true
    requisiteName := "order_id" }

/-- A gateway success envelope with absent `result` and absent `error`. -/
def respEmptyOK : Response :=
  { jsonrpc := "2.0", id := "1", result := none, error := none }

/-- The JSON-RPC method name of a dispatched request (the `"method"` field of
its envelope body). -/
def requestMethod (r : Request) : Option GoValue :=
  goLookup r.body "method"

/-- The `"amount"` entry of the `"params"` object of the first HTTP request
of a trace (`none` when the trace dispatches no request first). -/
def firstRequestAmount (tr : Trace) : Option GoValue :=
  match tr.head? with
  | some (.httpRequest req) =>
    (goLookup req.body "params").bind (fun p => goLookup p "amount")
  | _ => none

/-! ### C8 -/

/-- C8: `ValidateAmount a` succeeds (returns nil) iff `0 < a ≤ 999999999999`,
and any failure carries the `InvalidAmount` error kind. -/
theorem validateAmount_spec (a : Int) :
    ((ValidateAmount a).isNone = true ↔ (0 < a ∧ a ≤ 999999999999)) ∧
    (∀ e, ValidateAmount a = some e → e = GoError.errInvalidAmount) := by
  constructor
  · unfold ValidateAmount
    split
    · simp; omega
    · split
      · simp; omega
      · simp; omega
  · intro e he
    unfold ValidateAmount at he
    split at he
    · cases he; rfl
    · split at he
      · cases he; rfl
      · cases he

/-- Witness for C8: the bound at amounts 5 (valid) and 0 (invalid kind). -/
theorem validateAmount_spec_witness :
    (ValidateAmount 5).isNone = true ∧
    GoError.errInvalidAmount = GoError.errInvalidAmount :=
  ⟨(validateAmount_spec 5).1.mpr (by omega),
   (validateAmount_spec 0).2 GoError.errInvalidAmount rfl⟩

/-! ### C1 -/

/-- C1 counterexample: a decoded envelope carrying -31630 resolves to the
generic `ErrPaymeError` fallback, not to `ErrP2PIdenticalCards` as the claim
states (the switch of `handleErrorResponse` has no case for that code). -/
theorem handleErrorResponse_p2p_counterexample :
    (handleErrorResponse
      { jsonrpc := "2.0", id := "1", result := none,
        error := some { message := "p2p", code := -31630, data := "", origin := "" } }).2
      = some GoError.errPaymeError ∧
    GoError.errPaymeError ≠ GoError.errP2PIdenticalCards :=
  ⟨rfl, fun h => GoError.noConfusion h⟩

/-- C1 (amended): `handleErrorResponse` maps the eleven codes it has switch
cases for to their table kinds; the five remaining table codes (-31630,
-32504, -32700, -32601, -32600), like every other non-zero code, take the
generic `ErrPaymeError` fallback, and code 0 maps to no error. -/
theorem handleErrorResponse_taxonomy :
    (∀ code : Int, code ∉ mappedCodes → code ≠ 0 →
        kindOf code = some GoError.errPaymeError) ∧
    kindOf InvalidAmountErrorCode = some GoError.errInvalidAmount ∧
    kindOf InvalidParamsErrorCode = some GoError.errInvalidParams ∧
    kindOf ReceiptNotFoundErrorCode = some GoError.errReceiptNotFound ∧
    kindOf ReceiptAlreadyPaidErrorCode = some GoError.errReceiptAlreadyPaid ∧
    kindOf ReceiptExpiredErrorCode = some GoError.errReceiptExpired ∧
    kindOf CardNotFoundErrorCode = some GoError.errCardNotFound ∧
    kindOf CardNumberNotFoundCode = some GoError.errCardNotFound ∧
    kindOf InvalidFormatTokenErrorCode = some GoError.errInvalidFormatToken ∧
    kindOf CardExpiredCode = some GoError.errCardExpired ∧
    kindOf PaycomServiceNotAvailableCode = some GoError.errPaycomServiceNotAvailable ∧
    kindOf ProcessingCenterNotAvailableCode = some GoError.errProcessingCenterNotAvailable ∧
    kindOf P2PIdenticalCardsErrorCode = some GoError.errPaymeError ∧
    kindOf PermissionDeniedCode = some GoError.errPaymeError ∧
    kindOf ParseErrorCode = some GoError.errPaymeError ∧
    kindOf MethodNotFoundCode = some GoError.errPaymeError ∧
    kindOf InvalidRequestCode = some GoError.errPaymeError ∧
    kindOf 0 = none := by
  refine ⟨?_, rfl, rfl, rfl, rfl, rfl, rfl, rfl, rfl, rfl, rfl, rfl, rfl, rfl,
    rfl, rfl, rfl, rfl⟩
  intro code hmem hz
  simp only [mappedCodes, InvalidAmountErrorCode, InvalidParamsErrorCode,
    CardNotFoundErrorCode, InvalidFormatTokenErrorCode, CardNumberNotFoundCode,
    CardExpiredCode, ProcessingCenterNotAvailableCode, PaycomServiceNotAvailableCode,
    ReceiptNotFoundErrorCode, ReceiptAlreadyPaidErrorCode, ReceiptExpiredErrorCode,
    List.mem_cons, List.not_mem_nil, or_false, not_or] at hmem
  obtain ⟨h1, h2, h3, h4, h5, h6, h7, h8, h9, h10, h11⟩ := hmem
  simp [kindOf, handleErrorResponse, InvalidAmountErrorCode, InvalidParamsErrorCode,
    CardNotFoundErrorCode, InvalidFormatTokenErrorCode, CardNumberNotFoundCode,
    CardExpiredCode, ProcessingCenterNotAvailableCode, PaycomServiceNotAvailableCode,
    ReceiptNotFoundErrorCode, ReceiptAlreadyPaidErrorCode, ReceiptExpiredErrorCode,
    h1, h2, h3, h4, h5, h6, h7, h8, h9, h10, h11, hz]

/-- Witness for C1 (amended): the fallback clause at the unmapped code -99. -/
theorem handleErrorResponse_taxonomy_witness :
    kindOf (-99) = some GoError.errPaymeError :=
  handleErrorResponse_taxonomy.1 (-99) (by decide) (by decide)

/-! ### C2 -/

/-- C2 counterexample: the round trip fails at table code -32504
(PermissionDenied): `kindOf` sends it to the generic `ErrPaymeError`,
`GetErrorCode` sends that kind to 0, and `kindOf 0` is undefined (no error),
so the composite does not map back to the same kind. -/
theorem errorCode_roundTrip_counterexample :
    kindOf PermissionDeniedCode = some GoError.errPaymeError ∧
    GetErrorCode GoError.errPaymeError = 0 ∧
    kindOf (GetErrorCode GoError.errPaymeError) = none ∧
    (none : Option GoError) ≠ some GoError.errPaymeError :=
  ⟨rfl, rfl, rfl, fun h => Option.noConfusion h⟩

/-- C2 (amended): the round trip `kindOf (GetErrorCode (kindOf code))` is
kind-preserving exactly on the eleven codes `handleErrorResponse` maps to a
table kind; in particular both `CardNotFound` source codes round-trip to the
`CardNotFound` kind. -/
theorem errorCode_roundTrip_mapped :
    (kindOf InvalidAmountErrorCode = some GoError.errInvalidAmount ∧
     kindOf (GetErrorCode GoError.errInvalidAmount) = some GoError.errInvalidAmount) ∧
    (kindOf InvalidParamsErrorCode = some GoError.errInvalidParams ∧
     kindOf (GetErrorCode GoError.errInvalidParams) = some GoError.errInvalidParams) ∧
    (kindOf ReceiptNotFoundErrorCode = some GoError.errReceiptNotFound ∧
     kindOf (GetErrorCode GoError.errReceiptNotFound) = some GoError.errReceiptNotFound) ∧
    (kindOf ReceiptAlreadyPaidErrorCode = some GoError.errReceiptAlreadyPaid ∧
     kindOf (GetErrorCode GoError.errReceiptAlreadyPaid) = some GoError.errReceiptAlreadyPaid) ∧
    (kindOf ReceiptExpiredErrorCode = some GoError.errReceiptExpired ∧
     kindOf (GetErrorCode GoError.errReceiptExpired) = some GoError.errReceiptExpired) ∧
    (kindOf CardNotFoundErrorCode = some GoError.errCardNotFound ∧
     kindOf (GetErrorCode GoError.errCardNotFound) = some GoError.errCardNotFound) ∧
    (kindOf CardNumberNotFoundCode = some GoError.errCardNotFound ∧
     kindOf (GetErrorCode GoError.errCardNotFound) = some GoError.errCardNotFound) ∧
    (kindOf InvalidFormatTokenErrorCode = some GoError.errInvalidFormatToken ∧
     kindOf (GetErrorCode GoError.errInvalidFormatToken) = some GoError.errInvalidFormatToken) ∧
    (kindOf CardExpiredCode = some GoError.errCardExpired ∧
     kindOf (GetErrorCode GoError.errCardExpired) = some GoError.errCardExpired) ∧
    (kindOf PaycomServiceNotAvailableCode = some GoError.errPaycomServiceNotAvailable ∧
     kindOf (GetErrorCode GoError.errPaycomServiceNotAvailable)
       = some GoError.errPaycomServiceNotAvailable) ∧
    (kindOf ProcessingCenterNotAvailableCode = some GoError.errProcessingCenterNotAvailable ∧
     kindOf (GetErrorCode GoError.errProcessingCenterNotAvailable)
       = some GoError.errProcessingCenterNotAvailable) :=
  ⟨⟨rfl, rfl⟩, ⟨rfl, rfl⟩, ⟨rfl, rfl⟩, ⟨rfl, rfl⟩, ⟨rfl, rfl⟩, ⟨rfl, rfl⟩,
   ⟨rfl, rfl⟩, ⟨rfl, rfl⟩, ⟨rfl, rfl⟩, ⟨rfl, rfl⟩, ⟨rfl, rfl⟩⟩

/-! ### Pipeline helper lemmas (shared) -/

/-- `errors.Unwrap`: the `%w`-wrapped cause of an error, if any. -/
def GoError.unwrap : GoError → Option GoError
  | .wrapped _ cause => some cause
  | _ => none

/-- On a decoded envelope with no `error` field, `sendRequest` returns the
envelope with a nil error and dispatches exactly one request. -/
theorem sendRequest_success_noError (c : Client) (w : World) (requestID method : String)
    (params : GoValue) (withID : Bool) (timeout : List Int) (status : Int)
    (resp : Response) (h : resp.error = none)
    (hw : w (mkClientRequest c requestID method params withID timeout)
      = .success status (.envelope resp)) :
    c.sendRequest w requestID method params withID timeout
      = ((some resp, none),
         [Event.httpRequest (mkClientRequest c requestID method params withID timeout)]) := by
  simp only [Client.sendRequest]
  rw [hw]
  simp [handleErrorResponse, h]

/-- Specialisation of `sendRequest_success_noError` to a constant world,
usable as a rewrite rule. -/
theorem sendRequest_const_success (c : Client) (requestID method : String)
    (params : GoValue) (withID : Bool) (timeout : List Int) (status : Int)
    (resp : Response) (h : resp.error = none) :
    c.sendRequest (fun _ => .success status (.envelope resp)) requestID method params
        withID timeout
      = ((some resp, none),
         [Event.httpRequest (mkClientRequest c requestID method params withID timeout)]) :=
  sendRequest_success_noError c (fun _ => .success status (.envelope resp)) requestID
    method params withID timeout status resp h rfl

/-- `sendRequest` never returns a nil response together with a nil error. -/
theorem sendRequest_not_none_none (c : Client) (w : World) (requestID method : String)
    (params : GoValue) (withID : Bool) (timeout : List Int) :
    (c.sendRequest w requestID method params withID timeout).1
      ≠ ((none : Option Response), (none : Option GoError)) := by
  simp only [Client.sendRequest]
  rcases w (mkClientRequest c requestID method params withID timeout)
    with e | ⟨s, e⟩ | ⟨s, b⟩
  · dsimp only; split <;> simp
  · simp
  · rcases b with e | resp
    · simp
    · dsimp only
      rcases handleErrorResponse resp with ⟨r2, e2⟩
      rcases e2 with _ | e2
      · simp
      · dsimp only; split <;> simp

/-- The trace of `sendRequest` starts with the dispatched request. -/
theorem sendRequest_trace (c : Client) (w : World) (requestID method : String)
    (params : GoValue) (withID : Bool) (timeout : List Int) :
    ∃ rest, (c.sendRequest w requestID method params withID timeout).2
      = Event.httpRequest (mkClientRequest c requestID method params withID timeout)
          :: rest := by
  simp only [Client.sendRequest]
  rcases w (mkClientRequest c requestID method params withID timeout)
    with e | ⟨s, e⟩ | ⟨s, b⟩
  · dsimp only; split <;> exact ⟨[], rfl⟩
  · exact ⟨[], rfl⟩
  · rcases b with e | resp
    · exact ⟨[], rfl⟩
    · dsimp only
      rcases handleErrorResponse resp with ⟨r2, e2⟩
      rcases e2 with _ | e2
      · exact ⟨[], rfl⟩
      · dsimp only
        split
        · exact ⟨[.log (.paymeErrorResponse r2.error e2)], rfl⟩
        · exact ⟨[], rfl⟩

/-- Every HTTP request in the trace of `sendRequest` carries the given
JSON-RPC method in its envelope body. -/
theorem sendRequest_trace_method (c : Client) (w : World) (requestID method : String)
    (params : GoValue) (withID : Bool) (timeout : List Int) :
    ∀ r, Event.httpRequest r ∈ (c.sendRequest w requestID method params withID timeout).2 →
      requestMethod r = some (.str method) := by
  have hm : requestMethod (mkClientRequest c requestID method params withID timeout)
      = some (.str method) := by
    simp [requestMethod, mkClientRequest, mkRequestBody, goLookup, lookupField]
  intro r hr
  simp only [Client.sendRequest] at hr
  revert hr
  rcases w (mkClientRequest c requestID method params withID timeout)
    with e | ⟨s, e⟩ | ⟨s, b⟩
  · dsimp only; split <;> (intro hr; simp at hr; subst hr; exact hm)
  · intro hr; simp at hr; subst hr; exact hm
  · rcases b with e | resp
    · intro hr; simp at hr; subst hr; exact hm
    · dsimp only
      rcases handleErrorResponse resp with ⟨r2, e2⟩
      rcases e2 with _ | e2
      · intro hr; simp at hr; subst hr; exact hm
      · dsimp only
        split <;> (intro hr; simp at hr; subst hr; exact hm)

/-! ### C5 -/

/-- C5: an inbound envelope whose `error` field is nil yields a nil error from
the Pipeline regardless of the HTTP status code of the response. -/
theorem sendRequest_nilError (c : Client) (requestID method : String) (params : GoValue)
    (withID : Bool) (timeout : List Int) (status : Int) (resp : Response)
    (h : resp.error = none) :
    (c.sendRequest (fun _ => .success status (.envelope resp)) requestID method params
        withID timeout).1 = (some resp, none) := by
  rw [sendRequest_success_noError c (fun _ => .success status (.envelope resp))
    requestID method params withID timeout status resp h rfl]

/-- Witness for C5 on an HTTP 500 response with an empty success envelope. -/
theorem sendRequest_nilError_witness :
    (cSample.sendRequest (fun _ => .success 500 (.envelope respEmptyOK)) "r" "m"
        .null false []).1 = (some respEmptyOK, none) :=
  sendRequest_nilError cSample "r" "m" .null false [] 500 respEmptyOK rfl

/-! ### C7 -/

/-- C7: a transport failure whose error chain contains
`context.DeadlineExceeded` surfaces as the `Timeout` kind; any other transport
failure surfaces as an `"http request error"` wrapper around the cause, which
is never `Timeout` and unwraps to the cause. -/
theorem sendRequest_timeout_vs_transport (c : Client) (requestID method : String)
    (params : GoValue) (withID : Bool) (timeout : List Int) (e : GoError) :
    (errorsIsDeadlineExceeded e = true →
      (c.sendRequest (fun _ => .transportFailure e) requestID method params withID
          timeout).1 = (none, some GoError.errTimeout)) ∧
    (errorsIsDeadlineExceeded e = false →
      (c.sendRequest (fun _ => .transportFailure e) requestID method params withID
          timeout).1 = (none, some (.wrapped "http request error: " e)) ∧
      GoError.wrapped "http request error: " e ≠ GoError.errTimeout ∧
      (GoError.wrapped "http request error: " e).unwrap = some e) := by
  constructor
  · intro hd
    simp only [Client.sendRequest]
    simp [hd]
  · intro hd
    refine ⟨?_, fun h => GoError.noConfusion h, rfl⟩
    simp only [Client.sendRequest]
    simp [hd]

/-- Witness for C7: a deadline-exceeded cause (wrapped, as `url.Error` wraps
it) gives `Timeout`; a connection failure gives the transport wrapper. -/
theorem sendRequest_timeout_vs_transport_witness :
    (cSample.sendRequest (fun _ => .transportFailure
        (.wrapped "Post: " .deadlineExceeded)) "r" "m" .null false []).1
      = (none, some GoError.errTimeout) ∧
    (cSample.sendRequest (fun _ => .transportFailure (.flat "connection refused"))
        "r" "m" .null false []).1
      = (none, some (.wrapped "http request error: " (.flat "connection refused"))) :=
  ⟨(sendRequest_timeout_vs_transport cSample "r" "m" .null false []
      (.wrapped "Post: " .deadlineExceeded)).1 rfl,
   ((sendRequest_timeout_vs_transport cSample "r" "m" .null false []
      (.flat "connection refused")).2 rfl).1⟩

/-! ### C6 -/

/-- C6: when the Pipeline call succeeds with an envelope whose `result` is
absent, every receipt operation returns a zero-valued typed response
(nil receipt pointer, resp. nil receipts slice) together with a nil error. -/
theorem absentResult_zeroResponse (c : Client) (now status fromTime toTime count : Int)
    (resp : Response) (amount : Int) (account : GoValue) (description : String)
    (detail fiscalData : GoValue) (rid token : String)
    (hA : ValidateAmount amount = none) (hRid : ValidateReceiptID rid = none)
    (hTok : ValidateCardToken token = none)
    (hE : resp.error = none) (hR : resp.result = none) :
    (c.createReceipt (fun _ => .success status (.envelope resp)) now amount account
        description detail).1 = .ret (some { receipt := none }) none ∧
    (c.payReceipt (fun _ => .success status (.envelope resp)) now rid token).1
      = .ret (some { receipt := none }) none ∧
    (c.sendReceipt (fun _ => .success status (.envelope resp)) now rid).1
      = .ret (some { receipt := none }) none ∧
    (c.cancelReceipt (fun _ => .success status (.envelope resp)) now rid).1
      = .ret (some { receipt := none }) none ∧
    (c.checkReceipt (fun _ => .success status (.envelope resp)) now rid).1
      = .ret (some { receipt := none }) none ∧
    (c.getReceipt (fun _ => .success status (.envelope resp)) now rid).1
      = .ret (some { receipt := none }) none ∧
    (c.setFiscalData (fun _ => .success status (.envelope resp)) now rid fiscalData).1
      = .ret (some { receipt := none }) none ∧
    (c.getAllReceipts (fun _ => .success status (.envelope resp)) now fromTime toTime
        count).1 = .ret (some { receipts := [] }) none := by
  refine ⟨?_, ?_, ?_, ?_, ?_, ?_, ?_, ?_⟩ <;>
    simp [Client.createReceipt, Client.payReceipt, Client.sendReceipt,
      Client.cancelReceipt, Client.checkReceipt, Client.getReceipt,
      Client.setFiscalData, Client.getAllReceipts, hA, hRid, hTok,
      sendRequest_const_success, hE, hR]

/-- Witness for C6: create and check against an empty success envelope. -/
theorem absentResult_zeroResponse_witness :
    (cSample.createReceipt (fun _ => .success 200 (.envelope respEmptyOK)) 0 100
        (.map []) "d" .null).1 = .ret (some { receipt := none }) none ∧
    (cSample.checkReceipt (fun _ => .success 200 (.envelope respEmptyOK)) 0
        "rcpt_1").1 = .ret (some { receipt := none }) none :=
  ⟨(absentResult_zeroResponse cSample 0 200 0 0 0 respEmptyOK 100 (.map []) "d" .null
      .null "rcpt_1" "tok1234567" rfl rfl rfl rfl rfl).1,
   (absentResult_zeroResponse cSample 0 200 0 0 0 respEmptyOK 100 (.map []) "d" .null
      .null "rcpt_1" "tok1234567" rfl rfl rfl rfl rfl).2.2.2.2.1⟩

/-! ### C10 -/

/-- A gateway error envelope carrying code -31401 (receipt not found). -/
def respReceiptNotFound : Response :=
  { jsonrpc := "2.0", id := "1", result := none,
    error := some { message := "not found", code := -31401, data := "", origin := "" } }

/-- A world that always answers with the -31401 error envelope. -/
def wReceiptNotFound : World := fun _ => .success 200 (.envelope respReceiptNotFound)

/-- A success envelope whose receipt is in the Cancelled state (-1). -/
def respCancelledReceipt : Response :=
  { jsonrpc := "2.0", id := "1",
    result := some (.map [("receipt",
      .map [("_id", .str "rcpt_1"), ("state", .int64 (-1))])]),
    error := none }

/-- A world that always answers with the cancelled-receipt envelope. -/
def wCancelledReceipt : World := fun _ => .success 200 (.envelope respCancelledReceipt)

/-- C10: whenever `CheckReceipt` fails, `GetReceiptStatus` returns -1 together
with the error and the boolean helpers return false together with the error
(including `IsReceiptCanceled`); -1 is also what a successful lookup of a
receipt in the Cancelled lifecycle state returns, so the int alone conflates
the two. -/
theorem getReceiptStatus_conflation (c : Client) (w : World) (now : Int)
    (rid : String) :
    (∀ e tr, c.checkReceipt w now rid = (.ret none (some e), tr) →
      c.getReceiptStatus w now rid = (.ret (-1) (some e), tr) ∧
      c.isReceiptPaid w now rid = (.ret false (some e), tr) ∧
      c.isReceiptCanceled w now rid = (.ret false (some e), tr) ∧
      c.isReceiptExpired w now rid = (.ret false (some e), tr)) ∧
    (cSample.getReceiptStatus wReceiptNotFound 0 "rcpt_1").1
      = .ret (-1) (some GoError.errReceiptNotFound) ∧
    (cSample.getReceiptStatus wCancelledReceipt 0 "rcpt_1").1 = .ret (-1) none := by
  refine ⟨?_, rfl, rfl⟩
  intro e tr h
  have h1 : c.getReceiptStatus w now rid = (.ret (-1) (some e), tr) := by
    simp only [Client.getReceiptStatus]
    rw [h]
  refine ⟨h1, ?_, ?_, ?_⟩
  · simp only [Client.isReceiptPaid]; rw [h1]
  · simp only [Client.isReceiptCanceled]; rw [h1]
  · simp only [Client.isReceiptExpired]; rw [h1]

/-- Witness for C10 at a failing lookup (gateway answers -31401). -/
theorem getReceiptStatus_conflation_witness :
    cSample.isReceiptCanceled wReceiptNotFound 0 "rcpt_1"
      = (.ret false (some GoError.errReceiptNotFound),
         (cSample.checkReceipt wReceiptNotFound 0 "rcpt_1").2) :=
  ((getReceiptStatus_conflation cSample wReceiptNotFound 0 "rcpt_1").1
    GoError.errReceiptNotFound (cSample.checkReceipt wReceiptNotFound 0 "rcpt_1").2
    rfl).2.2.1

/-! ### C3 -/

/-- The first request dispatched by `CreateReceipt` carries the caller's
amount verbatim in its params. -/
theorem createReceipt_firstRequestAmount (c : Client) (w : World) (now : Int)
    (amount : Int) (account : GoValue) (description : String) (detail : GoValue)
    (hA : ValidateAmount amount = none) :
    firstRequestAmount (c.createReceipt w now amount account description detail).2
      = some (.int64 amount) := by
  obtain ⟨rest, hTr⟩ := sendRequest_trace c w (GenerateRequestID "ReceiptsCreate" now)
    "receipts.create" (createReceiptParams amount account description detail) false []
  simp only [Client.createReceipt, hA]
  rcases hs : c.sendRequest w (GenerateRequestID "ReceiptsCreate" now) "receipts.create"
      (createReceiptParams amount account description detail) false []
    with ⟨⟨resp?, err?⟩, tr⟩
  rw [hs] at hTr
  dsimp only at hTr
  rcases err? with _ | e
  · rcases resp? with _ | resp
    · rw [hTr]
      simp [firstRequestAmount, mkClientRequest, mkRequestBody, goLookup, lookupField,
        createReceiptParams]
    · dsimp only
      rcases resp.result with _ | rv
      · rw [hTr]
        simp [firstRequestAmount, mkClientRequest, mkRequestBody, goLookup, lookupField,
          createReceiptParams]
      · dsimp only
        rcases unmarshalReceiptWrapper rv with _ | r
        · rw [hTr]
          simp [firstRequestAmount, mkClientRequest, mkRequestBody, goLookup, lookupField,
            createReceiptParams]
        · rw [hTr]
          simp [firstRequestAmount, mkClientRequest, mkRequestBody, goLookup, lookupField,
            createReceiptParams]
  · rw [hTr]
    simp [firstRequestAmount, mkClientRequest, mkRequestBody, goLookup, lookupField,
      createReceiptParams]

/-- The first request dispatched by `CreateMerchantReceipt` carries the
som → tiyin converted amount in its params. -/
theorem createMerchantReceipt_firstRequestAmount (c : Client) (w : World)
    (data : PaymentDetails) :
    firstRequestAmount (c.createMerchantReceipt w data).2
      = some (.intV (FromSomToTiyin data.amount)) := by
  obtain ⟨rest, hTr⟩ := sendRequest_trace c w
    ("ReceiptsCreate:MerchantTransaction:" ++ data.client.orderID)
    "receipts.create" (merchantReceiptParams c data) false []
  simp only [Client.createMerchantReceipt]
  rcases hs : c.sendRequest w ("ReceiptsCreate:MerchantTransaction:" ++ data.client.orderID)
      "receipts.create" (merchantReceiptParams c data) false []
    with ⟨⟨resp?, err?⟩, tr⟩
  rw [hs] at hTr
  dsimp only at hTr
  rcases err? with _ | e
  · rcases resp? with _ | resp
    · rw [hTr]
      simp [firstRequestAmount, mkClientRequest, mkRequestBody, goLookup, lookupField,
        merchantReceiptParams]
    · dsimp only
      rcases resp.result with _ | rv
      · rw [hTr]
        simp [firstRequestAmount, mkClientRequest, mkRequestBody, goLookup, lookupField,
          merchantReceiptParams]
      · dsimp only
        rcases unmarshalReceiptWrapper rv with _ | r
        · rw [hTr]
          simp [firstRequestAmount, mkClientRequest, mkRequestBody, goLookup, lookupField,
            merchantReceiptParams]
        · rcases r with _ | r
          · rw [hTr]
            simp [firstRequestAmount, mkClientRequest, mkRequestBody, goLookup, lookupField,
              merchantReceiptParams]
          · dsimp only
            split <;>
              (rw [hTr];
               simp [firstRequestAmount, mkClientRequest, mkRequestBody, goLookup,
                 lookupField, merchantReceiptParams])
  · rw [hTr]
    simp [firstRequestAmount, mkClientRequest, mkRequestBody, goLookup, lookupField,
      merchantReceiptParams]

/-- C3 counterexample: `CreateReceipt` places the caller-supplied amount in
the outbound params unchanged: with caller amount 1 the dispatched params
carry 1, not the claimed `FromSomToTiyin 1 = 100`. -/
theorem createReceipt_amount_counterexample :
    firstRequestAmount (cSample.createReceipt
        (fun _ => .success 200 (.envelope respEmptyOK)) 0 1 (.map []) "d" .null).2
      = some (GoValue.int64 1) ∧
    FromSomToTiyin 1 = 100 ∧
    GoValue.int64 1 ≠ GoValue.int64 100 := by
  refine ⟨rfl, rfl, ?_⟩
  intro h
  injection h with h
  exact absurd h (by decide)

/-- C3 (amended): only `CreateMerchantReceipt` converts the caller-supplied
major-unit amount (× 100 via `FromSomToTiyin`) before building params;
`CreateReceipt` places the caller-supplied amount in the outbound params
unchanged (callers supply minor units directly). -/
theorem outboundAmount_units (c : Client) (w : World) (now : Int)
    (data : PaymentDetails) (amount : Int) (account : GoValue) (description : String)
    (detail : GoValue) (hA : ValidateAmount amount = none) :
    firstRequestAmount (c.createMerchantReceipt w data).2
      = some (.intV (FromSomToTiyin data.amount)) ∧
    firstRequestAmount (c.createReceipt w now amount account description detail).2
      = some (.int64 amount) :=
  ⟨createMerchantReceipt_firstRequestAmount c w data,
   createReceipt_firstRequestAmount c w now amount account description detail hA⟩

/-- Witness for C3 (amended): concrete merchant and plain creates. -/
theorem outboundAmount_units_witness :
    firstRequestAmount (cSample.createMerchantReceipt
        (fun _ => .success 200 (.envelope respEmptyOK))
        { client := { orderID := "ord1", cardData := { id := "card1", token := "t" } }
          driver := { orderID := "", cardData := { id := "", token := "" } }
          amount := 7 }).2
      = some (.intV 700) ∧
    firstRequestAmount (cSample.createReceipt
        (fun _ => .success 200 (.envelope respEmptyOK)) 0 100 (.map []) "d" .null).2
      = some (.int64 100) :=
  ⟨(outboundAmount_units cSample (fun _ => .success 200 (.envelope respEmptyOK)) 0
      { client := { orderID := "ord1", cardData := { id := "card1", token := "t" } }
        driver := { orderID := "", cardData := { id := "", token := "" } }
        amount := 7 } 100 (.map []) "d" .null rfl).1,
   (outboundAmount_units cSample (fun _ => .success 200 (.envelope respEmptyOK)) 0
      { client := { orderID := "ord1", cardData := { id := "card1", token := "t" } }
        driver := { orderID := "", cardData := { id := "", token := "" } }
        amount := 7 } 100 (.map []) "d" .null rfl).2⟩

/-! ### C4 -/

/-- A success envelope whose result carries a created receipt `rcpt_1`. -/
def respCreated : Response :=
  { jsonrpc := "2.0", id := "1",
    result := some (.map [("receipt", .map [("_id", .str "rcpt_1")])]),
    error := none }

/-- A gateway error envelope carrying code -31402 (receipt already paid). -/
def respAlreadyPaid : Response :=
  { jsonrpc := "2.0", id := "1", result := none,
    error := some { message := "already paid", code := -31402, data := "", origin := "" } }

/-- Concrete payment details used by the witnesses. -/
def dataSample : PaymentDetails :=
  { client := { orderID := "ord1", cardData := { id := "card1", token := "tok1234567" } }
    driver := { orderID := "", cardData := { id := "", token := "" } }
    amount := 5 }

/-- A world where `receipts.pay` fails with -31402 and every other method
succeeds with a created receipt. -/
def wPayFails : World := fun req =>
  match requestMethod req with
  | some (.str m) =>
    if m = "receipts.pay" then .success 200 (.envelope respAlreadyPaid)
    else .success 200 (.envelope respCreated)
  | _ => .success 200 (.envelope respCreated)

/-- Every HTTP request of a `CreateReceipt` call carries `receipts.create`. -/
theorem createReceipt_trace_methods (c : Client) (w : World) (now : Int) (amount : Int)
    (account : GoValue) (description : String) (detail : GoValue) :
    ∀ r, Event.httpRequest r ∈ (c.createReceipt w now amount account description detail).2 →
      requestMethod r = some (.str "receipts.create") := by
  intro r hr
  simp only [Client.createReceipt] at hr
  revert hr
  rcases ValidateAmount amount with _ | e
  · rcases hs : c.sendRequest w (GenerateRequestID "ReceiptsCreate" now) "receipts.create"
        (createReceiptParams amount account description detail) false []
      with ⟨⟨resp?, err?⟩, tr⟩
    have hmem : ∀ x, Event.httpRequest x ∈ tr →
        requestMethod x = some (.str "receipts.create") := by
      intro x hx
      exact sendRequest_trace_method c w _ _ _ _ _ x (by rw [hs]; exact hx)
    rcases err? with _ | e
    · rcases resp? with _ | resp
      · exact hmem r
      · dsimp only
        rcases resp.result with _ | rv
        · exact hmem r
        · dsimp only
          rcases unmarshalReceiptWrapper rv with _ | rr
          · exact hmem r
          · exact hmem r
    · rcases resp? with _ | resp <;> exact hmem r
  · intro hr; simp at hr

/-- Every HTTP request of a `PayReceipt` call carries `receipts.pay`. -/
theorem payReceipt_trace_methods (c : Client) (w : World) (now : Int)
    (receiptID token : String) :
    ∀ r, Event.httpRequest r ∈ (c.payReceipt w now receiptID token).2 →
      requestMethod r = some (.str "receipts.pay") := by
  intro r hr
  simp only [Client.payReceipt] at hr
  revert hr
  rcases ValidateReceiptID receiptID with _ | e
  · rcases ValidateCardToken token with _ | e
    · rcases hs : c.sendRequest w (GenerateRequestID "ReceiptsPay" now) "receipts.pay"
          (.map [("id", .str receiptID), ("token", .str token)]) false []
        with ⟨⟨resp?, err?⟩, tr⟩
      have hmem : ∀ x, Event.httpRequest x ∈ tr →
          requestMethod x = some (.str "receipts.pay") := by
        intro x hx
        exact sendRequest_trace_method c w _ _ _ _ _ x (by rw [hs]; exact hx)
      rcases err? with _ | e
      · rcases resp? with _ | resp
        · exact hmem r
        · dsimp only
          rcases resp.result with _ | rv
          · exact hmem r
          · dsimp only
            rcases unmarshalReceiptWrapper rv with _ | rr
            · exact hmem r
            · exact hmem r
      · rcases resp? with _ | resp <;> exact hmem r
    · intro hr; simp at hr
  · intro hr; simp at hr

/-- Every HTTP request of a `CreateMerchantReceipt` call carries
`receipts.create`. -/
theorem createMerchantReceipt_trace_methods (c : Client) (w : World)
    (data : PaymentDetails) :
    ∀ r, Event.httpRequest r ∈ (c.createMerchantReceipt w data).2 →
      requestMethod r = some (.str "receipts.create") := by
  intro r hr
  simp only [Client.createMerchantReceipt] at hr
  revert hr
  rcases hs : c.sendRequest w ("ReceiptsCreate:MerchantTransaction:" ++ data.client.orderID)
      "receipts.create" (merchantReceiptParams c data) false []
    with ⟨⟨resp?, err?⟩, tr⟩
  have hmem : ∀ x, Event.httpRequest x ∈ tr →
      requestMethod x = some (.str "receipts.create") := by
    intro x hx
    exact sendRequest_trace_method c w _ _ _ _ _ x (by rw [hs]; exact hx)
  rcases err? with _ | e
  · rcases resp? with _ | resp
    · exact hmem r
    · dsimp only
      rcases resp.result with _ | rv
      · exact hmem r
      · dsimp only
        rcases unmarshalReceiptWrapper rv with _ | rr
        · exact hmem r
        · rcases rr with _ | rr
          · exact hmem r
          · dsimp only
            split
            · intro hr
              rcases List.mem_append.mp hr with h | h
              · exact hmem r h
              · simp at h
            · exact hmem r
  · rcases resp? with _ | resp <;> exact hmem r

/-- Every HTTP request of a `PayMerchantReceipt` call carries `receipts.pay`. -/
theorem payMerchantReceipt_trace_methods (c : Client) (w : World)
    (data : PaymentDetails) (createdReceiptsID : String) :
    ∀ r, Event.httpRequest r ∈ (c.payMerchantReceipt w data createdReceiptsID).2 →
      requestMethod r = some (.str "receipts.pay") := by
  intro r hr
  simp only [Client.payMerchantReceipt] at hr
  revert hr
  rcases hs : c.sendRequest w ("ReceiptsPay:" ++ data.client.orderID) "receipts.pay"
      (.map [("id", .str createdReceiptsID), ("token", .str data.client.cardData.token)])
      false []
    with ⟨⟨resp?, err?⟩, tr⟩
  have hmem : ∀ x, Event.httpRequest x ∈ tr →
      requestMethod x = some (.str "receipts.pay") := by
    intro x hx
    exact sendRequest_trace_method c w _ _ _ _ _ x (by rw [hs]; exact hx)
  rcases err? with _ | e
  · rcases resp? with _ | resp
    · exact hmem r
    · dsimp only
      rcases resp.result with _ | rv
      · exact hmem r
      · dsimp only
        rcases unmarshalReceiptWrapper rv with _ | rr
        · exact hmem r
        · rcases rr with _ | rr
          · exact hmem r
          · dsimp only
            split
            · intro hr
              rcases List.mem_append.mp hr with h | h
              · exact hmem r h
              · simp at h
            · exact hmem r
  · rcases resp? with _ | resp
    · exact hmem r
    · exact hmem r

/-- Every HTTP request of a `CreateAndPayMerchantReceipt` call carries either
`receipts.create` or `receipts.pay`. -/
theorem createAndPayMerchantReceipt_trace_methods (c : Client) (w : World)
    (data : PaymentDetails) :
    ∀ r, Event.httpRequest r ∈ (c.createAndPayMerchantReceipt w data).2 →
      requestMethod r = some (.str "receipts.create") ∨
      requestMethod r = some (.str "receipts.pay") := by
  intro r hr
  simp only [Client.createAndPayMerchantReceipt] at hr
  revert hr
  rcases h1 : c.createMerchantReceipt w data with ⟨res1, tr1⟩
  have hmem1 : ∀ x, Event.httpRequest x ∈ tr1 →
      requestMethod x = some (.str "receipts.create") := by
    intro x hx
    exact createMerchantReceipt_trace_methods c w data x (by rw [h1]; exact hx)
  rcases res1 with ⟨v1, e1⟩ | m1
  · rcases e1 with _ | e1
    · dsimp only
      rcases h2 : c.payMerchantReceipt w data v1 with ⟨res2, tr2⟩
      have hmem2 : ∀ x, Event.httpRequest x ∈ tr2 →
          requestMethod x = some (.str "receipts.pay") := by
        intro x hx
        exact payMerchantReceipt_trace_methods c w data v1 x (by rw [h2]; exact hx)
      rcases res2 with ⟨v2, e2⟩ | m2
      · rcases e2 with _ | e2 <;>
          (intro hr;
           rcases List.mem_append.mp hr with h | h
           · exact Or.inl (hmem1 r h)
           · exact Or.inr (hmem2 r h))
      · intro hr
        rcases List.mem_append.mp hr with h | h
        · exact Or.inl (hmem1 r h)
        · exact Or.inr (hmem2 r h)
    · intro hr; exact Or.inl (hmem1 r hr)
  · intro hr; exact Or.inl (hmem1 r hr)

/-- Every HTTP request of a `CreateAndPayReceipt` call carries either
`receipts.create` or `receipts.pay`. -/
theorem createAndPayReceipt_trace_methods (c : Client) (w : World) (now : Int)
    (amount : Int) (account : GoValue) (description token : String) :
    ∀ r, Event.httpRequest r ∈ (c.createAndPayReceipt w now amount account description
        token).2 →
      requestMethod r = some (.str "receipts.create") ∨
      requestMethod r = some (.str "receipts.pay") := by
  intro r hr
  simp only [Client.createAndPayReceipt] at hr
  revert hr
  rcases h1 : c.createReceipt w now amount account description .null with ⟨res1, tr1⟩
  have hmem1 : ∀ x, Event.httpRequest x ∈ tr1 →
      requestMethod x = some (.str "receipts.create") := by
    intro x hx
    exact createReceipt_trace_methods c w now amount account description .null x
      (by rw [h1]; exact hx)
  rcases res1 with ⟨v1, e1⟩ | m1
  · rcases e1 with _ | e1
    · rcases v1 with _ | resp1
      · intro hr; exact Or.inl (hmem1 r hr)
      · dsimp only
        rcases resp1.receipt with _ | rcpt
        · intro hr; exact Or.inl (hmem1 r hr)
        · dsimp only
          rcases h2 : c.payReceipt w now rcpt.id token with ⟨res2, tr2⟩
          have hmem2 : ∀ x, Event.httpRequest x ∈ tr2 →
              requestMethod x = some (.str "receipts.pay") := by
            intro x hx
            exact payReceipt_trace_methods c w now rcpt.id token x (by rw [h2]; exact hx)
          rcases res2 with ⟨v2, e2⟩ | m2
          · rcases e2 with _ | e2 <;>
              (intro hr;
               rcases List.mem_append.mp hr with h | h
               · exact Or.inl (hmem1 r h)
               · exact Or.inr (hmem2 r h))
          · intro hr
            rcases List.mem_append.mp hr with h | h
            · exact Or.inl (hmem1 r h)
            · exact Or.inr (hmem2 r h)
    · intro hr; exact Or.inl (hmem1 r hr)
  · intro hr; exact Or.inl (hmem1 r hr)

/-- C4 counterexample: `CreateAndPayReceipt` does not propagate the Pay error
unchanged: it wraps it as `"pay receipt error: %w"`, a different error value. -/
theorem createAndPayReceipt_wraps_counterexample :
    (cSample.createAndPayReceipt (fun _ => .success 200 (.envelope respCreated)) 0 100
        (.map []) "d" "").1
      = .ret none (some (.wrapped "pay receipt error: " GoError.errInvalidFormatToken)) ∧
    GoError.wrapped "pay receipt error: " GoError.errInvalidFormatToken
      ≠ GoError.errInvalidFormatToken :=
  ⟨rfl, fun h => GoError.noConfusion h⟩

/-- C4 (amended): on a failing Pay step `CreateAndPayMerchantReceipt` returns
the Pay error propagated unchanged while `CreateAndPayReceipt` returns it
wrapped as `"pay receipt error: %w"` (cause preserved); both return no result
derived from the created receipt (empty string resp. nil response) and neither
composite ever dispatches a `receipts.cancel` request. -/
theorem createAndPay_propagation (c : Client) (w : World) (data : PaymentDetails)
    (now : Int) (amount : Int) (account : GoValue) (description token : String) :
    (∀ cid v e tr1 tr2,
      c.createMerchantReceipt w data = (.ret cid none, tr1) →
      c.payMerchantReceipt w data cid = (.ret v (some e), tr2) →
      c.createAndPayMerchantReceipt w data = (.ret "" (some e), tr1 ++ tr2)) ∧
    (∀ resp rcpt v e tr1 tr2,
      c.createReceipt w now amount account description .null
        = (.ret (some resp) none, tr1) →
      resp.receipt = some rcpt →
      c.payReceipt w now rcpt.id token = (.ret v (some e), tr2) →
      c.createAndPayReceipt w now amount account description token
        = (.ret none (some (.wrapped "pay receipt error: " e)), tr1 ++ tr2)) ∧
    (∀ r, Event.httpRequest r ∈ (c.createAndPayMerchantReceipt w data).2 →
      requestMethod r ≠ some (.str "receipts.cancel")) ∧
    (∀ r, Event.httpRequest r ∈ (c.createAndPayReceipt w now amount account description
        token).2 → requestMethod r ≠ some (.str "receipts.cancel")) := by
  refine ⟨?_, ?_, ?_, ?_⟩
  · intro cid v e tr1 tr2 h1 h2
    simp only [Client.createAndPayMerchantReceipt, h1, h2]
  · intro resp rcpt v e tr1 tr2 h1 hrec h2
    simp only [Client.createAndPayReceipt, h1, hrec, h2]
  · intro r hr
    rcases createAndPayMerchantReceipt_trace_methods c w data r hr with h | h <;>
      (rw [h]; simp)
  · intro r hr
    rcases createAndPayReceipt_trace_methods c w now amount account description token
        r hr with h | h <;>
      (rw [h]; simp)

/-- Witness for C4 (amended): under `wPayFails` both composites run a
successful create and a failing pay; the merchant composite surfaces the Pay
error value unchanged, the plain composite surfaces it wrapped. -/
theorem createAndPay_propagation_witness :
    cSample.createAndPayMerchantReceipt wPayFails dataSample
      = (.ret "" (some (.failedReceiptsPay GoError.errReceiptAlreadyPaid
            "ReceiptsPay:ord1" "rcpt_1" (some
              { message := "already paid", code := -31402, data := "", origin := "" }))),
         (cSample.createMerchantReceipt wPayFails dataSample).2
           ++ (cSample.payMerchantReceipt wPayFails dataSample "rcpt_1").2) ∧
    cSample.createAndPayReceipt wPayFails 0 100 (.map []) "d" "tok1234567"
      = (.ret none (some (.wrapped "pay receipt error: " GoError.errReceiptAlreadyPaid)),
         (cSample.createReceipt wPayFails 0 100 (.map []) "d" .null).2
           ++ (cSample.payReceipt wPayFails 0 "rcpt_1" "tok1234567").2) :=
  ⟨(createAndPay_propagation cSample wPayFails dataSample 0 100 (.map []) "d"
      "tok1234567").1 "rcpt_1" ""
      (.failedReceiptsPay GoError.errReceiptAlreadyPaid "ReceiptsPay:ord1" "rcpt_1"
        (some { message := "already paid", code := -31402, data := "", origin := "" }))
      (cSample.createMerchantReceipt wPayFails dataSample).2
      (cSample.payMerchantReceipt wPayFails dataSample "rcpt_1").2 rfl rfl,
   (createAndPay_propagation cSample wPayFails dataSample 0 100 (.map []) "d"
      "tok1234567").2.1 { receipt := some { id := "rcpt_1" } } { id := "rcpt_1" }
      none GoError.errReceiptAlreadyPaid
      (cSample.createReceipt wPayFails 0 100 (.map []) "d" .null).2
      (cSample.payReceipt wPayFails 0 "rcpt_1" "tok1234567").2 rfl rfl rfl⟩

/-! ### C9 -/

/-- Holds when a Go return carries a nil error; a panic returns no value at
all, so it trivially carries no error report. -/
def retErrNone {α : Type} : GoRet α → Prop
  | .ret _ e => e = none
  | .panic _ => True

/-- Whether the `receipt["amount"].(int64)` type assertion succeeds. -/
def amountAsserted (item : List (String × GoValue)) : Bool :=
  match lookupField item "amount" with
  | some (.int64 _) => true
  | _ => false

/-- Whether the `receipt["account"].(map[string]interface{})` type assertion
succeeds. -/
def accountAsserted (item : List (String × GoValue)) : Bool :=
  match lookupField item "account" with
  | some (.map _) => true
  | _ => false

/-- `CancelReceipt` always returns (never panics). -/
theorem cancelReceipt_ret (c : Client) (w : World) (now : Int) (rid : String) :
    ∃ v e tr, c.cancelReceipt w now rid = (.ret v e, tr) := by
  simp only [Client.cancelReceipt]
  rcases ValidateReceiptID rid with _ | e
  · rcases hs : c.sendRequest w (GenerateRequestID "ReceiptsCancel" now) "receipts.cancel"
        (.map [("id", .str rid)]) false [] with ⟨⟨resp?, err?⟩, tr⟩
    rcases err? with _ | e
    · rcases resp? with _ | resp
      · have hnn := sendRequest_not_none_none c w (GenerateRequestID "ReceiptsCancel" now)
          "receipts.cancel" (.map [("id", .str rid)]) false []
        rw [hs] at hnn
        simp at hnn
      · dsimp only
        rcases resp.result with _ | rv
        · exact ⟨_, _, _, rfl⟩
        · dsimp only
          rcases unmarshalReceiptWrapper rv with _ | rr
          · exact ⟨_, _, _, rfl⟩
          · exact ⟨_, _, _, rfl⟩
    · rcases resp? with _ | resp <;> exact ⟨_, _, _, rfl⟩
  · exact ⟨_, _, _, rfl⟩

/-- The cancel loop always finishes with a nil error. -/
theorem cancelMultipleLoop_ret (c : Client) (w : World) (now : Int) :
    ∀ rids, (cancelMultipleLoop c w now rids).1 = GoRet.ret () none := by
  intro rids
  induction rids with
  | nil => rfl
  | cons rid rest ih =>
    simp only [cancelMultipleLoop]
    obtain ⟨v, e, tr, heq⟩ := cancelReceipt_ret c w now rid
    rw [heq]
    rcases e with _ | e
    · dsimp only
      rcases hl : cancelMultipleLoop c w now rest with ⟨res2, tr2⟩
      rw [hl] at ih
      simpa using ih
    · dsimp only
      rcases hl : cancelMultipleLoop c w now rest with ⟨res2, tr2⟩
      rw [hl] at ih
      simpa using ih

/-- Whenever the create loop returns, its error component is nil. -/
theorem createMultipleLoop_errNone (c : Client) (w : World) (now : Int) :
    ∀ receipts, retErrNone (createMultipleLoop c w now receipts).1 := by
  intro receipts
  induction receipts with
  | nil => exact rfl
  | cons item rest ih =>
    simp only [createMultipleLoop]
    rcases lookupField item "amount" with _ | v
    · exact ih
    · rcases v with _ | b | s | n | n | xs | fs
      · exact ih
      · exact ih
      · exact ih
      · dsimp only
        rcases lookupField item "account" with _ | v2
        · exact ih
        · rcases v2 with _ | b2 | s2 | n2 | n2 | xs2 | fs2
          · exact ih
          · exact ih
          · exact ih
          · exact ih
          · exact ih
          · exact ih
          · dsimp only
            rcases hc : c.createReceipt w now n (.map fs2) (itemDescription item)
                (itemDetail item) with ⟨res1, tr1⟩
            rcases res1 with ⟨v1, e1⟩ | m1
            · rcases e1 with _ | e1
              · rcases v1 with _ | resp
                · exact trivial
                · dsimp only
                  rcases resp.receipt with _ | rcpt
                  · exact trivial
                  · dsimp only
                    rcases hl : createMultipleLoop c w now rest with ⟨res2, tr2⟩
                    rw [hl] at ih
                    rcases res2 with ⟨ids2, e2⟩ | m2
                    · simpa using ih
                    · exact trivial
              · dsimp only
                rcases hl : createMultipleLoop c w now rest with ⟨res2, tr2⟩
                rw [hl] at ih
                simpa using ih
            · exact trivial
      · exact ih
      · exact ih
      · exact ih

/-- A success envelope reporting the gateway error -31611. -/
def respInvalidAmountEnv : Response :=
  { jsonrpc := "2.0", id := "1", result := none,
    error := some { message := "invalid amount", code := -31611, data := "", origin := "" } }

/-- A batch item whose create call succeeds under `wSecondItemFails`. -/
def itemG1 : List (String × GoValue) :=
  [("amount", .int64 1), ("account", .map [("order_id", .str "o1")])]

/-- A batch item whose create call fails under `wSecondItemFails`. -/
def itemG2 : List (String × GoValue) :=
  [("amount", .int64 2), ("account", .map [("order_id", .str "o2")])]

/-- A world where requests with params amount 2 fail with -31611 and all
other requests succeed with a created receipt. -/
def wSecondItemFails : World := fun req =>
  match (goLookup req.body "params").bind (fun p => goLookup p "amount") with
  | some (.int64 n) =>
    if n = 2 then .success 200 (.envelope respInvalidAmountEnv)
    else .success 200 (.envelope respCreated)
  | _ => .success 200 (.envelope respCreated)

/-- C9: the batch helpers are best-effort and silent: `CancelMultipleReceipts`
always returns a nil error; whenever `CreateMultipleReceipts` returns, its
error is nil; an item failing a type assertion is skipped with no request, no
log and no error (the whole call is literally that of the remaining batch); an
item whose create call fails contributes only that call's own trace and no id;
a failed cancel is logged exactly when a logger is configured and the loop
continues; and a total-success run and a partial-failure run can return the
same id list and nil error. -/
theorem multipleReceipts_bestEffort (c : Client) (w : World) (now : Int) :
    (∀ rids, (c.cancelMultipleReceipts w now rids).1 = GoRet.ret () none) ∧
    (∀ receipts, retErrNone (c.createMultipleReceipts w now receipts).1) ∧
    (∀ item rest, amountAsserted item = false ∨ accountAsserted item = false →
      c.createMultipleReceipts w now (item :: rest)
        = c.createMultipleReceipts w now rest) ∧
    (∀ item rest amount account v e tr,
      lookupField item "amount" = some (.int64 amount) →
      lookupField item "account" = some (.map account) →
      c.createReceipt w now amount (.map account) (itemDescription item)
          (itemDetail item) = (.ret v (some e), tr) →
      c.createMultipleReceipts w now (item :: rest)
        = ((c.createMultipleReceipts w now rest).1,
           tr ++ (c.createMultipleReceipts w now rest).2)) ∧
    (∀ rid rest v e tr, c.cancelReceipt w now rid = (.ret v (some e), tr) →
      c.cancelMultipleReceipts w now (rid :: rest)
        = ((c.cancelMultipleReceipts w now rest).1,
           tr ++ (if c.hasLogger then [Event.log (.cancelFailed rid e)] else [])
              ++ (c.cancelMultipleReceipts w now rest).2)) ∧
    (cSample.createMultipleReceipts wSecondItemFails 0 [itemG1]).1
      = .ret ["rcpt_1"] none ∧
    (cSample.createMultipleReceipts wSecondItemFails 0 [itemG1, itemG2]).1
      = .ret ["rcpt_1"] none := by
  refine ⟨cancelMultipleLoop_ret c w now, createMultipleLoop_errNone c w now,
    ?_, ?_, ?_, rfl, rfl⟩
  · intro item rest hb
    simp only [Client.createMultipleReceipts, createMultipleLoop]
    rcases hv : lookupField item "amount" with _ | v
    · rfl
    · rcases v with _ | b | s | n | n | xs | fs
      · rfl
      · rfl
      · rfl
      · have hacc : accountAsserted item = false := by
          rcases hb with h | h
          · exfalso
            rw [amountAsserted] at h
            rw [hv] at h
            simp at h
          · exact h
        dsimp only
        rcases hv2 : lookupField item "account" with _ | v2
        · rfl
        · rcases v2 with _ | b2 | s2 | n2 | n2 | xs2 | fs2
          · rfl
          · rfl
          · rfl
          · rfl
          · rfl
          · rfl
          · exfalso
            rw [accountAsserted] at hacc
            rw [hv2] at hacc
            simp at hacc
      · rfl
      · rfl
      · rfl
  · intro item rest amount account v e tr h1 h2 h3
    simp only [Client.createMultipleReceipts, createMultipleLoop, h1, h2, h3]
  · intro rid rest v e tr h
    simp only [Client.cancelMultipleReceipts, cancelMultipleLoop, h]

/-- Witness for C9: an item whose amount entry is a string is silently
dropped, leaving the call equal to the call on the empty batch. -/
theorem multipleReceipts_bestEffort_witness :
    cSample.createMultipleReceipts wSecondItemFails 0 [[("amount", GoValue.str "x")]]
      = cSample.createMultipleReceipts wSecondItemFails 0 [] :=
  (multipleReceipts_bestEffort cSample wSecondItemFails 0).2.2.1
    [("amount", GoValue.str "x")] [] (Or.inl rfl)

end Payme
